import Mathlib

/-!
Verification of the data-processing core (enrichment + analytics) of the
repository, shallowly embedded in Lean 4.

Conventions of the embedding:
* Python floats are modelled as rationals (ℚ); the scoring formulas only use
  exactly representable constants (14, 7.5, 1.5, 2.5, ...), so no rounding is
  lost.  The A/B-test statistics, which take square roots, are modelled over ℝ.
* `Optional[str]` fields are `Option String`; Python truthiness of a value is
  modelled explicitly per type (None/empty string/zero/empty collection are
  falsy).
* `dict` values with insertion order are association lists.
* Timestamps are integers (a day count); `datetime.now()` is passed in
  explicitly as a parameter `now`.
* Exceptions are `Except`/explicit outcome types.
-/

/-- `ProductData` from `xml_processor.py`: the shared product entity. -/
structure ProductData where
  id : String
  title : Option String := none
  description : Option String := none
  price : Option ℚ := none
  category : Option String := none
  brand : Option String := none
  sku : Option String := none
  attributes : List (String × String) := []
  images : List String := []
deriving DecidableEq, Repr

/-- Python truthiness of an `Option String` field (absent or empty is falsy). -/
def strTruthy : Option String → Bool
  | none => false
  | some s => s ≠ ""

/-- Python truthiness of an optional numeric field (absent or zero is falsy). -/
def numTruthy : Option ℚ → Bool
  | none => false
  | some q => q ≠ 0

/-- `_calculate_content_quality_score` (analytics_processor.py, lines 681-720). -/
def _calculate_content_quality_score (product : ProductData) : ℚ :=
  let score : ℚ := 0
  -- Title quality (25 points)
  let score := score +
    (match product.title with
     | none => 0
     | some t =>
       if t = "" then 0
       else if 30 ≤ t.length ∧ t.length ≤ 60 then 25
       else if (20 ≤ t.length ∧ t.length < 30) ∨ (60 < t.length ∧ t.length ≤ 80) then 20
       else 10)
  -- Description quality (35 points)
  let score := score +
    (match product.description with
     | none => 0
     | some d =>
       if d = "" then 0
       else if 150 ≤ d.length ∧ d.length ≤ 500 then 35
       else if (100 ≤ d.length ∧ d.length < 150) ∨ (500 < d.length ∧ d.length ≤ 1000) then 25
       else 15)
  -- Attributes richness (20 points)
  let score := score +
    (if product.attributes = [] then 0 else min 20 ((product.attributes.length : ℚ) * 2))
  -- Images presence (10 points)
  let score := score +
    (if product.images = [] then 0 else min 10 ((product.images.length : ℚ) * 2))
  -- Basic information completeness (10 points)
  let complete_fields : ℚ :=
    (if numTruthy product.price then 1 else 0) +
    (if strTruthy product.category then 1 else 0) +
    (if strTruthy product.brand then 1 else 0)
  let score := score + (complete_fields / 3) * 10
  min 100 score

/-- `_calculate_completeness_score` (analytics_processor.py, lines 722-745).
Required fields contribute 14 each when truthy; every truthy optional field
contributes a flat 7.5 (the `isinstance` branches all add the same 7.5). -/
def _calculate_completeness_score (product : ProductData) : ℚ :=
  let score : ℚ :=
    (if product.id ≠ "" then 14 else 0) +
    (if strTruthy product.title then 14 else 0) +
    (if strTruthy product.description then 14 else 0) +
    (if numTruthy product.price then 14 else 0) +
    (if strTruthy product.category then 14 else 0)
  let score := score +
    (if strTruthy product.brand then (7.5 : ℚ) else 0) +
    (if strTruthy product.sku then (7.5 : ℚ) else 0) +
    (if product.images ≠ [] then (7.5 : ℚ) else 0) +
    (if product.attributes ≠ [] then (7.5 : ℚ) else 0)
  min 100 score

/-- `_calculate_seo_score` (analytics_processor.py, lines 747-785). -/
def _calculate_seo_score (product : ProductData) : ℚ :=
  let score : ℚ :=
    (match product.title with
     | none => 0
     | some t =>
       if t = "" then 0
       else if 30 ≤ t.length ∧ t.length ≤ 60 then 30
       else if 20 ≤ t.length ∧ t.length ≤ 80 then 20
       else 10)
  let score := score +
    (match product.description with
     | none => 0
     | some d =>
       if d = "" then 0
       else if 150 ≤ d.length ∧ d.length ≤ 300 then 30
       else if 100 ≤ d.length ∧ d.length ≤ 500 then 20
       else 10)
  let score := score + (if strTruthy product.category then 20 else 0)
  let score := score + (if strTruthy product.brand then 10 else 0)
  let seo_attr_count : ℚ :=
    if product.attributes = [] then 0
    else
      (if (product.attributes.map Prod.fst).contains "meta_description" then 1 else 0) +
      (if (product.attributes.map Prod.fst).contains "keywords" then 1 else 0) +
      (if (product.attributes.map Prod.fst).contains "tags" then 1 else 0)
  let score := score +
    (if product.attributes = [] then 0 else (seo_attr_count / 3) * 10)
  min 100 score

/-- `_calculate_content_completeness` (data_enricher.py, lines 874-899): the
enrichment engine's own completeness pass.  Unlike the analytics version,
attributes contribute `min(7.5, count * 1.5)` and images `min(7.5, count * 2.5)`. -/
def _calculate_content_completeness (product : ProductData) : ℚ :=
  let score : ℚ :=
    (if product.id ≠ "" then 14 else 0) +
    (if strTruthy product.title then 14 else 0) +
    (if strTruthy product.description then 14 else 0) +
    (if numTruthy product.price then 14 else 0) +
    (if strTruthy product.category then 14 else 0)
  let score := score +
    (if strTruthy product.brand then (7.5 : ℚ) else 0) +
    (if strTruthy product.sku then (7.5 : ℚ) else 0) +
    (if product.images ≠ [] then min (7.5 : ℚ) ((product.images.length : ℚ) * 2.5) else 0) +
    (if product.attributes ≠ [] then min (7.5 : ℚ) ((product.attributes.length : ℚ) * 1.5) else 0)
  min 100 score

/-- `_create_distribution` (analytics_processor.py, lines 787-806): empty input
returns the empty mapping; otherwise five fixed buckets with inclusive upper
bounds, filled by the if/elif chain of the source. -/
def _create_distribution (values : List ℚ) : List (String × ℕ) :=
  if values = [] then []
  else
    [ ("0-20", values.countP (fun v => decide (v ≤ 20))),
      ("21-40", values.countP (fun v => decide (¬ (v ≤ 20) ∧ v ≤ 40))),
      ("41-60", values.countP (fun v => decide (¬ (v ≤ 40) ∧ v ≤ 60))),
      ("61-80", values.countP (fun v => decide (¬ (v ≤ 60) ∧ v ≤ 80))),
      ("81-100", values.countP (fun v => decide (¬ (v ≤ 80)))) ]

/-! ## Statistics helpers (`statistics.mean` / `statistics.median`, list min/max) -/

/-- `statistics.mean` over rationals. -/
def qmean (l : List ℚ) : ℚ := l.sum / l.length

/-- Insert into a sorted list of rationals (ascending). -/
def insertQ (x : ℚ) : List ℚ → List ℚ
  | [] => [x]
  | y :: ys => if x ≤ y then x :: y :: ys else y :: insertQ x ys

/-- Ascending insertion sort on rationals, modelling `sorted(values)`. -/
def sortQ (l : List ℚ) : List ℚ := l.foldr insertQ []

/-- `statistics.median`: middle element of the sorted list, or the mean of the
two middle elements for even length. -/
def qmedian (l : List ℚ) : ℚ :=
  let s := sortQ l
  let n := s.length
  if n = 0 then 0
  else if n % 2 = 1 then s.getD (n / 2) 0
  else (s.getD (n / 2 - 1) 0 + s.getD (n / 2) 0) / 2

/-- `min(values)` with the source's convention of being called on non-empty
lists only (0 for the empty list). -/
def listMin (l : List ℚ) : ℚ :=
  match l with
  | [] => 0
  | h :: t => t.foldl min h

/-- `max(values)` (0 for the empty list). -/
def listMax (l : List ℚ) : ℚ :=
  match l with
  | [] => 0
  | h :: t => t.foldl max h

/-! ## Cohort analysis (`perform_cohort_analysis`, analytics_processor.py 375-447) -/

/-- The string key a product contributes to in cohort grouping, or `none` when
the source drops the record.  Models
`cohort_value = getattr(product, cohort_field, 'Unknown')` followed by the
truthiness test `if cohort_value:` and the key conversion `str(cohort_value)`:
a record ends up in cohort `str(v)` exactly when its field value `v` is truthy;
a field name that is not an attribute of `ProductData` defaults to the (truthy)
string `Unknown`.  String rendering of non-string values is modelled by
`toString`. -/
def cohortValue (p : ProductData) (f : String) : Option String :=
  if f = "id" then (if p.id = "" then none else some p.id)
  else if f = "title" then (match p.title with | none => none | some s => if s = "" then none else some s)
  else if f = "description" then (match p.description with | none => none | some s => if s = "" then none else some s)
  else if f = "price" then (match p.price with | none => none | some q => if q = 0 then none else some (toString q))
  else if f = "category" then (match p.category with | none => none | some s => if s = "" then none else some s)
  else if f = "brand" then (match p.brand with | none => none | some s => if s = "" then none else some s)
  else if f = "sku" then (match p.sku with | none => none | some s => if s = "" then none else some s)
  else if f = "attributes" then (if p.attributes = [] then none else some (toString p.attributes))
  else if f = "images" then (if p.images = [] then none else some (toString p.images))
  else some "Unknown"

/-- Append a product to its cohort bucket, creating the bucket at the end on
first appearance (insertion-ordered `defaultdict(list)`). -/
def addToCohorts (k : String) (p : ProductData) :
    List (String × List ProductData) → List (String × List ProductData)
  | [] => [(k, [p])]
  | (k', g) :: rest => if k' = k then (k', g ++ [p]) :: rest else (k', g) :: addToCohorts k p rest

/-- The grouping loop of `perform_cohort_analysis`. -/
def cohortGroups (products : List ProductData) (cohort_field : String) :
    List (String × List ProductData) :=
  products.foldl
    (fun acc p =>
      match cohortValue p cohort_field with
      | some k => addToCohorts k p acc
      | none => acc)
    []

/-- Bucket lookup in a cohort grouping (`[]` when the key is absent). -/
def lookupCohort (groups : List (String × List ProductData)) (k : String) :
    List ProductData :=
  match groups with
  | [] => []
  | (k', g) :: rest => if k' = k then g else lookupCohort rest k

/-- Per-cohort metrics of `perform_cohort_analysis`. -/
structure CohortMetrics where
  size : ℕ
  percentage : ℚ
  avg_quality_score : ℚ
  avg_completeness : ℚ
  price_stats : Option (ℚ × ℚ × ℚ × ℚ)
  attribute_diversity : ℕ
deriving DecidableEq, Repr

/-- The body of the per-cohort loop: size, percentage of the full record count,
mean quality/completeness, price min/max/mean/median over truthy prices, and
distinct attribute-key count (`price_stats` is `none` for the empty `{}`). -/
def cohortMetricsOf (total : ℕ) (g : List ProductData) : CohortMetrics :=
  let prices := (g.filterMap (fun p => p.price)).filter (fun q => decide (q ≠ 0))
  { size := g.length
    percentage := ((g.length : ℚ) / (total : ℚ)) * 100
    avg_quality_score := if g = [] then 0 else qmean (g.map _calculate_content_quality_score)
    avg_completeness := if g = [] then 0 else qmean (g.map _calculate_completeness_score)
    price_stats :=
      if g = [] then none
      else if prices = [] then none
      else some (listMin prices, listMax prices, qmean prices, qmedian prices)
    attribute_diversity :=
      if g = [] then 0
      else ((g.map (fun p => p.attributes.map Prod.fst)).flatten).dedup.length }

/-- Result shape of `perform_cohort_analysis`. -/
structure CohortAnalysis where
  cohort_field : String
  total_cohorts : ℕ
  total_products : ℕ
  cohort_details : List (String × CohortMetrics)
deriving DecidableEq, Repr

/-- `perform_cohort_analysis(products, cohort_field)`. -/
def perform_cohort_analysis (products : List ProductData) (cohort_field : String) :
    CohortAnalysis :=
  let groups := cohortGroups products cohort_field
  { cohort_field := cohort_field
    total_cohorts := groups.length
    total_products := products.length
    cohort_details := groups.map (fun kg => (kg.1, cohortMetricsOf products.length kg.2)) }

/-! ## Metric store, trend analysis and forecast -/

/-- `MetricData` (analytics_processor.py 66-74).  The free-form
`dimensions`/`metadata` mappings are omitted: nothing on the verified paths
reads them.  Timestamps are integer day counts. -/
structure MetricData where
  metric_name : String
  value : ℚ
  timestamp : ℤ
deriving DecidableEq, Repr

/-- Lookup in the insertion-ordered metric store (`metric_name in self.metrics_store`). -/
def storeLookup (store : List (String × List MetricData)) (name : String) :
    Option (List MetricData) :=
  match store with
  | [] => none
  | (k, v) :: rest => if k = name then some v else storeLookup rest name

/-- The window filter of `perform_trend_analysis`: keep the metric's points with
`start_date <= timestamp <= end_date` where `start_date = now - days`. -/
def windowData (store : List (String × List MetricData)) (now : ℤ) (name : String)
    (days : ℤ) : List MetricData :=
  match storeLookup store name with
  | none => []
  | some pts => pts.filter (fun m => decide (now - days ≤ m.timestamp ∧ m.timestamp ≤ now))

/-- Insert a point into a timestamp-sorted list, keeping it stable. -/
def insertByTs (x : MetricData) : List MetricData → List MetricData
  | [] => [x]
  | y :: ys => if x.timestamp ≤ y.timestamp then x :: y :: ys else y :: insertByTs x ys

/-- `metric_data.sort(key=lambda x: x.timestamp)` as a stable insertion sort. -/
def sortByTs (l : List MetricData) : List MetricData := l.foldr insertByTs []

/-- The local `values` of `perform_trend_analysis`: the window's values after
the timestamp sort. -/
def trendValues (store : List (String × List MetricData)) (now : ℤ) (name : String)
    (days : ℤ) : List ℚ :=
  (sortByTs (windowData store now name days)).map MetricData.value

/-- Σ x over the regression indices `x = range(n)`. -/
def olsSumX (n : ℕ) : ℚ := ((List.range n).map (fun i : ℕ => (i : ℚ))).sum

/-- Σ x² over the regression indices. -/
def olsSumX2 (n : ℕ) : ℚ := ((List.range n).map (fun i : ℕ => ((i : ℚ)) ^ 2)).sum

/-- Σ x·y with y the observed values. -/
def olsSumXY (values : List ℚ) : ℚ :=
  (((List.range values.length).zip values).map (fun p => (p.1 : ℚ) * p.2)).sum

/-- The slope of `_generate_forecast`'s least-squares line, with the source's
guard on the degenerate denominator.  Only invoked by the source with at least
3 values. -/
def olsSlope (values : List ℚ) : ℚ :=
  let n : ℚ := values.length
  if n * olsSumX2 values.length - olsSumX values.length ^ 2 ≠ 0 then
    (n * olsSumXY values - olsSumX values.length * values.sum) /
      (n * olsSumX2 values.length - olsSumX values.length ^ 2)
  else 0

/-- The intercept `(sum_y - slope * sum_x) / n` of `_generate_forecast`. -/
def olsIntercept (values : List ℚ) : ℚ :=
  (values.sum - olsSlope values * olsSumX values.length) / (values.length : ℚ)

/-- Payload of a successful `_generate_forecast`. -/
structure ForecastData where
  forecast_days : ℕ
  forecast_values : List ℚ
  trend_slope : ℚ
  confidence : ℚ
deriving DecidableEq, Repr

/-- `_generate_forecast(values, days)` (analytics_processor.py 952-990):
requires at least 3 values, fits the least-squares line over indices
`0..n-1`, and projects `days` forward values floored at zero. -/
def _generate_forecast (values : List ℚ) (days : ℕ) : Except String ForecastData :=
  if values.length < 3 then .error "Insufficient data for forecasting"
  else
    .ok { forecast_days := days
          forecast_values :=
            (List.range days).map
              (fun i : ℕ => max 0 (olsSlope values * ((values.length : ℚ) + (i : ℚ)) + olsIntercept values))
          trend_slope := olsSlope values
          confidence := 70 }

/-- `_calculate_trend_direction` (analytics_processor.py 847-868). -/
def _calculate_trend_direction (values : List ℚ) : String :=
  if values.length < 2 then "stable"
  else
    let first_avg := qmean (values.take (values.length / 2))
    let second_avg := qmean (values.drop (values.length / 2))
    let change_percent := if first_avg ≠ 0 then ((second_avg - first_avg) / first_avg) * 100 else 0
    if change_percent > 5 then "increasing"
    else if change_percent < -5 then "decreasing"
    else "stable"

/-- `_calculate_growth_rate` (analytics_processor.py 882-887). -/
def _calculate_growth_rate (values : List ℚ) : ℚ :=
  if values.length < 2 ∨ values.headD 0 = 0 then 0
  else ((values.getLastD 0 - values.headD 0) / values.headD 0) * 100

/-- Result of `perform_trend_analysis`.  The `volatility`, `seasonal_patterns`
and `anomalies` entries are omitted from the embedding: they involve real
square roots and calendar weekday arithmetic and no verified claim reads them. -/
structure TrendAnalysis where
  metric_name : String
  period_days : ℤ
  data_points : ℕ
  start_value : ℚ
  end_value : ℚ
  min_value : ℚ
  max_value : ℚ
  average_value : ℚ
  median_value : ℚ
  trend_direction : String
  growth_rate : ℚ
  forecast : Except String ForecastData
deriving Repr

/-- `perform_trend_analysis(metric_name, days)` (analytics_processor.py
321-373): filter the store to the window, return an error mapping when the
window is empty, otherwise sort by timestamp and build the trend statistics;
the forecast is generated with the hard-coded argument `days=7`. -/
def perform_trend_analysis (store : List (String × List MetricData)) (now : ℤ)
    (metric_name : String) (days : ℤ) : Except String TrendAnalysis :=
  let metric_data := windowData store now metric_name days
  if metric_data = [] then .error ("No data found for metric " ++ metric_name)
  else
    let values := (sortByTs metric_data).map MetricData.value
    .ok { metric_name := metric_name
          period_days := days
          data_points := values.length
          start_value := values.headD 0
          end_value := values.getLastD 0
          min_value := listMin values
          max_value := listMax values
          average_value := if values = [] then 0 else qmean values
          median_value := if values = [] then 0 else qmedian values
          trend_direction := _calculate_trend_direction values
          growth_rate := _calculate_growth_rate values
          forecast := _generate_forecast values 7 }

/-! ## Alert evaluation (`track_metric` / `_check_alerts`) -/

/-- Substring test `needle in hay` on character lists (true for the empty
needle, as in Python). -/
def containsSub (needle : List Char) : List Char → Bool
  | [] => needle.isEmpty
  | c :: rest => needle.isPrefixOf (c :: rest) || containsSub needle rest

/-- An emitted alert (analytics_processor.py 1018-1026).  The wall-clock
`timestamp` entry is omitted: it is `datetime.now()` and no claim reads it. -/
structure AlertEvent where
  metric_name : String
  value : ℚ
  threshold : ℚ
  severity : String
deriving DecidableEq, Repr

/-- The loop body of `_check_alerts` over the configured thresholds, returning
the alerts appended to the history, in threshold order. -/
def checkAlertsGo (m : MetricData) : List (String × ℚ) → List AlertEvent
  | [] => []
  | (tname, tval) :: rest =>
    (if containsSub tname.toList m.metric_name.toList ∧ m.value < tval then
       [{ metric_name := m.metric_name
          value := m.value
          threshold := tval
          severity := if m.value > tval * 0.8 then "warning" else "critical" }]
     else []) ++ checkAlertsGo m rest

/-- `_check_alerts(metric)` (analytics_processor.py 1010-1030), with the early
return on an empty threshold configuration. -/
def _check_alerts (thresholds : List (String × ℚ)) (m : MetricData) : List AlertEvent :=
  if thresholds = [] then [] else checkAlertsGo m thresholds

/-- The mutable state of `AnalyticsProcessor` touched by `track_metric`. -/
structure AnalyticsState where
  metrics_store : List (String × List MetricData)
  alert_history : List AlertEvent
deriving Repr

/-- `self.metrics_store[name].append(m)` on the insertion-ordered defaultdict. -/
def storeAppend : List (String × List MetricData) → String → MetricData →
    List (String × List MetricData)
  | [], name, m => [(name, [m])]
  | (k, v) :: rest, name, m =>
    if k = name then (k, v ++ [m]) :: rest else (k, v) :: storeAppend rest name m

/-- `track_metric(metric)` (analytics_processor.py 119-131): append the point
to the store and run the alert check, appending any emitted alerts to the
history. -/
def track_metric (thresholds : List (String × ℚ)) (st : AnalyticsState)
    (m : MetricData) : AnalyticsState :=
  { metrics_store := storeAppend st.metrics_store m.metric_name m
    alert_history := st.alert_history ++ _check_alerts thresholds m }

/-! ## Enrichment engine (`enrich_product`, data_enricher.py 93-196)

`enrich_product` first builds an independent copy of the input record (a fresh
`ProductData` with copied attribute/image containers) and then runs the enabled
passes over that copy, mutating it in place.  To make the mutation and the
aliasing between `original_product` and the caller's record visible, the
embedding uses an explicit heap of records addressed by natural-number
references; each pass application reads the working reference and writes the
rewritten record back to it.

The concrete pass bodies (`_apply_seo_optimization` and friends) are large
string-rewriting routines whose internals no verified claim depends on; the
orchestrator is therefore embedded parametrically in a pass table
`PassImpl`.  A pass outcome carries the record state it leaves behind: a
Python pass mutates the working object in place, so when it raises the working
copy keeps whatever partial writes happened before the exception. -/

/-- `EnrichmentType` (data_enricher.py 21-30). -/
inductive EnrichmentType where
  | seo_optimization
  | content_generation
  | amazon_optimization
  | multi_channel
  | quality_scoring
  | translation
  | categorization
deriving DecidableEq, Repr

/-- `EnrichmentType.value`, the string payload of each enum member. -/
def EnrichmentType.val : EnrichmentType → String
  | .seo_optimization => "seo_optimization"
  | .content_generation => "content_generation"
  | .amazon_optimization => "amazon_optimization"
  | .multi_channel => "multi_channel"
  | .quality_scoring => "quality_scoring"
  | .translation => "translation"
  | .categorization => "categorization"

/-- Whether `enrich_product`'s dispatch has a branch for the type: the
`MULTI_CHANNEL` and `TRANSLATION` members appear in no `elif` and fall
through the loop untouched. -/
def handledType : EnrichmentType → Bool
  | .multi_channel => false
  | .translation => false
  | _ => true

/-- Outcome of running one pass body on the working record: normal return with
incremental metrics and suggestions, or an exception; either way the record
the pass left in place is carried along. -/
inductive PassOutcome where
  | ok (record : ProductData) (metrics : List (String × ℚ)) (suggestions : List String)
  | err (record : ProductData) (message : String)
deriving DecidableEq, Repr

/-- A table assigning each enrichment type its pass body. -/
def PassImpl : Type := EnrichmentType → ProductData → PassOutcome

/-- Upsert one key into an insertion-ordered string-keyed mapping. -/
def dictUpsert (d : List (String × ℚ)) (k : String) (v : ℚ) : List (String × ℚ) :=
  match d with
  | [] => [(k, v)]
  | (k', v') :: rest => if k' = k then (k, v) :: rest else (k', v') :: dictUpsert rest k v

/-- Python `dict.update`: upsert every pair of the increment, in order. -/
def dictUpdate (d upd : List (String × ℚ)) : List (String × ℚ) :=
  upd.foldl (fun acc kv => dictUpsert acc kv.1 kv.2) d

instance : Inhabited ProductData := ⟨{ id := "" }⟩

/-- A heap of product records addressed by allocation index. -/
structure Heap where
  recs : List ProductData
deriving Repr

/-- Dereference (the default record is never reached on verified paths). -/
def heapRead (h : Heap) (r : ℕ) : ProductData := h.recs.getD r default

/-- In-place mutation of the record behind a reference. -/
def heapWrite (h : Heap) (r : ℕ) (p : ProductData) : Heap := ⟨h.recs.set r p⟩

/-- Allocate a fresh record, returning its reference. -/
def heapAlloc (h : Heap) (p : ProductData) : Heap × ℕ := (⟨h.recs ++ [p]⟩, h.recs.length)

/-- The copy constructed at data_enricher.py 106-116: a fresh `ProductData`
with every scalar field carried over and `attributes.copy()` /
`images.copy()`; containers of immutable strings, so a value copy. -/
def copyProduct (p : ProductData) : ProductData :=
  { id := p.id
    title := p.title
    description := p.description
    price := p.price
    category := p.category
    brand := p.brand
    sku := p.sku
    attributes := p.attributes
    images := p.images }

/-- The loop state of `enrich_product`: the heap, plus the accumulating
`applied_enrichments`, `quality_metrics` and `suggestions`. -/
structure EnrichState where
  heap : Heap
  applied : List EnrichmentType
  metrics : List (String × ℚ)
  suggestions : List String

/-- The failure note appended by the `except` handler:
`f'Failed to apply {enrichment_type.value}: {e}'`. -/
def failNote (t : EnrichmentType) (e : String) : String :=
  "Failed to apply " ++ t.val ++ ": " ++ e

/-- One iteration of the dispatch loop: run the branch for the type (if any)
on the working record; on normal return update the record, metrics,
suggestions and `applied_enrichments`; on an exception keep the record the
pass left behind and append the failure note only. -/
def enrichStep (impls : PassImpl) (work : ℕ) (st : EnrichState) (t : EnrichmentType) :
    EnrichState :=
  if handledType t then
    match impls t (heapRead st.heap work) with
    | .ok r ms ss =>
      { heap := heapWrite st.heap work r
        applied := st.applied ++ [t]
        metrics := dictUpdate st.metrics ms
        suggestions := st.suggestions ++ ss }
    | .err r e =>
      { heap := heapWrite st.heap work r
        applied := st.applied
        metrics := st.metrics
        suggestions := st.suggestions ++ [failNote t e] }
  else st

/-- `_calculate_enrichment_score(original, enriched, metrics)`
(data_enricher.py 901-932). -/
def _calculate_enrichment_score (original enriched : ProductData)
    (metrics : List (String × ℚ)) : ℚ :=
  let quality_scores :=
    (metrics.filter (fun kv =>
      containsSub "quality".toList kv.1.toList || containsSub "score".toList kv.1.toList)).map
      Prod.snd
  let base_score := if quality_scores = [] then 50 else qmean quality_scores
  let improvement_bonus : ℚ :=
    (if enriched.title ≠ original.title then 10 else 0) +
    (if enriched.description ≠ original.description then 15 else 0) +
    (if original.attributes.length < enriched.attributes.length then
       min 20 (((enriched.attributes.length : ℚ) - (original.attributes.length : ℚ)) * 2)
     else 0) +
    (if enriched.category ≠ original.category ∧ strTruthy enriched.category then 5 else 0)
  min 100 (base_score + improvement_bonus)

/-- `EnrichmentResult` with the two records as heap references, making the
sharing explicit: `original_ref` is the caller's record, `enriched_ref` the
independently owned copy.  The `timestamp` field (`datetime.now()`) is
omitted. -/
structure EnrichmentResultR where
  original_ref : ℕ
  enriched_ref : ℕ
  enrichment_score : ℚ
  applied_enrichments : List EnrichmentType
  quality_metrics : List (String × ℚ)
  suggestions : List String
deriving DecidableEq, Repr

/-- The reference of the working copy allocated by `enrich_product`: the next
free slot of the heap. -/
def enrichWork (h : Heap) : ℕ := h.recs.length

/-- The state at the top of `enrich_product`'s dispatch loop: the heap with
the fresh copy allocated, and empty `applied_enrichments`, `quality_metrics`
and `suggestions`. -/
def enrichInit (h : Heap) (orig : ℕ) : EnrichState :=
  { heap := (heapAlloc h (copyProduct (heapRead h orig))).1
    applied := []
    metrics := []
    suggestions := [] }

/-- `enrich_product(product)` (data_enricher.py 93-196): copy the record into
a fresh allocation, fold the enabled types through the dispatch loop, score
the result, and return it; total even when passes raise. -/
def enrich_product (impls : PassImpl) (enabled_types : List EnrichmentType)
    (h : Heap) (orig : ℕ) : Heap × EnrichmentResultR :=
  let product := heapRead h orig
  let st := enabled_types.foldl (enrichStep impls (enrichWork h)) (enrichInit h orig)
  let enriched := heapRead st.heap (enrichWork h)
  (st.heap,
   { original_ref := orig
     enriched_ref := enrichWork h
     enrichment_score := _calculate_enrichment_score product enriched st.metrics
     applied_enrichments := st.applied
     quality_metrics := st.metrics
     suggestions := st.suggestions })

/-! ## A/B test analysis (`generate_ab_test_analysis`, analytics_processor.py 449-533)

The statistics here take square roots, so this part of the embedding lives in
ℝ (with classical decidability for the comparisons the source branches on). -/

/-- `statistics.mean` over reals. -/
noncomputable def rmean (l : List ℝ) : ℝ := l.sum / l.length

/-- `statistics.stdev(values) if len(values) > 1 else 0`: the sample standard
deviation with Bessel's correction, guarded exactly as at the call sites. -/
noncomputable def sampleStdev (l : List ℝ) : ℝ :=
  if 1 < l.length then
    Real.sqrt ((l.map (fun x => (x - rmean l) ^ 2)).sum / ((l.length : ℝ) - 1))
  else 0

/-- `min(values)` over reals (0 for the empty list, unreached). -/
noncomputable def listMinR (l : List ℝ) : ℝ :=
  match l with
  | [] => 0
  | h :: t => t.foldl min h

/-- `max(values)` over reals (0 for the empty list, unreached). -/
noncomputable def listMaxR (l : List ℝ) : ℝ :=
  match l with
  | [] => 0
  | h :: t => t.foldl max h

/-- The analysis mapping built by `generate_ab_test_analysis` (the `test_name`
echo is omitted). -/
structure ABTestResult where
  control_sample_size : ℕ
  control_mean : ℝ
  control_std_dev : ℝ
  control_min : ℝ
  control_max : ℝ
  variant_sample_size : ℕ
  variant_mean : ℝ
  variant_std_dev : ℝ
  variant_min : ℝ
  variant_max : ℝ
  improvement_percentage : ℝ
  is_significant : Prop
  confidence_level : ℝ
  recommendation : String
  t_statistic : ℝ
  pooled_std_dev : ℝ
  effect_size : ℝ

open Classical in
/-- `generate_ab_test_analysis(test_name, control_metrics, variant_metrics)`
(analytics_processor.py 449-533), on the value lists extracted from the two
metric groups; `none` is the `error` mapping returned when either group is
empty. -/
noncomputable def generate_ab_test_analysis (control_values variant_values : List ℝ) :
    Option ABTestResult :=
  if control_values = [] ∨ variant_values = [] then none
  else
    let control_mean := rmean control_values
    let variant_mean := rmean variant_values
    let improvement :=
      if control_mean ≠ 0 then ((variant_mean - control_mean) / control_mean) * 100 else 0
    let control_std := sampleStdev control_values
    let variant_std := sampleStdev variant_values
    let pooled_std := Real.sqrt ((control_std ^ 2 + variant_std ^ 2) / 2)
    let t_stat :=
      if pooled_std > 0 then
        |variant_mean - control_mean| /
          (pooled_std *
            Real.sqrt (2 / ((min control_values.length variant_values.length : ℕ) : ℝ)))
      else 0
    some
      { control_sample_size := control_values.length
        control_mean := control_mean
        control_std_dev := control_std
        control_min := listMinR control_values
        control_max := listMaxR control_values
        variant_sample_size := variant_values.length
        variant_mean := variant_mean
        variant_std_dev := variant_std
        variant_min := listMinR variant_values
        variant_max := listMaxR variant_values
        improvement_percentage := improvement
        is_significant := t_stat > 1.96
        confidence_level := min 99.9 (max 50 (50 + t_stat * 10))
        recommendation :=
          if t_stat > 1.96 ∧ improvement > 0 then "Deploy variant" else "Keep control"
        t_statistic := t_stat
        pooled_std_dev := pooled_std
        effect_size :=
          if pooled_std > 0 then |variant_mean - control_mean| / pooled_std else 0 }

/-- Concrete 30-point control sample for the A/B-test witness: mean 10,
sample standard deviation exactly 1 (squared deviations sum to 29). -/
noncomputable def abControlSample : List ℝ := [13.5, 6.5, 11.5, 8.5] ++ List.replicate 26 10

/-- Concrete 30-point variant sample for the A/B-test witness: mean 14,
sample standard deviation exactly 1. -/
noncomputable def abVariantSample : List ℝ := [17.5, 10.5, 15.5, 12.5] ++ List.replicate 26 14

/-! # Theorems -/

/-! ## Enrichment pipeline (C4, C7) and helper lemmas -/

lemma heapRead_write_ne (h : Heap) (w r : ℕ) (p : ProductData) (hne : r ≠ w) :
    heapRead (heapWrite h w p) r = heapRead h r := by
  simp [heapRead, heapWrite, List.getD, List.getElem?_set_ne (Ne.symm hne)]

lemma foldl_heap_outside (impls : PassImpl) (w : ℕ) (l : List EnrichmentType) :
    ∀ (st : EnrichState) (r : ℕ), r ≠ w →
      heapRead (List.foldl (enrichStep impls w) st l).heap r = heapRead st.heap r := by
  induction l with
  | nil => intro st r _; rfl
  | cons t rest ih =>
    intro st r hr
    rw [List.foldl_cons, ih _ r hr]
    unfold enrichStep
    split_ifs with hh
    · cases impls t (heapRead st.heap w) <;> exact heapRead_write_ne _ _ _ _ hr
    · rfl

lemma suggestions_foldl_suffix (impls : PassImpl) (w : ℕ) (l : List EnrichmentType) :
    ∀ st : EnrichState, ∃ s, (List.foldl (enrichStep impls w) st l).suggestions =
      st.suggestions ++ s := by
  induction l with
  | nil => intro st; exact ⟨[], by simp⟩
  | cons t rest ih =>
    intro st
    rw [List.foldl_cons]
    obtain ⟨s, hs⟩ := ih (enrichStep impls w st t)
    rw [hs]
    unfold enrichStep
    split_ifs with hh
    · cases impls t (heapRead st.heap w) with
      | ok r ms ss => exact ⟨ss ++ s, by simp⟩
      | err r e => exact ⟨[failNote t e] ++ s, by simp⟩
    · exact ⟨s, rfl⟩

lemma applied_foldl_suffix (impls : PassImpl) (w : ℕ) (l : List EnrichmentType) :
    ∀ st : EnrichState, ∃ a, (List.foldl (enrichStep impls w) st l).applied =
      st.applied ++ a ∧ ∀ x ∈ a, x ∈ l := by
  induction l with
  | nil => intro st; exact ⟨[], by simp, by simp⟩
  | cons t rest ih =>
    intro st
    rw [List.foldl_cons]
    obtain ⟨a, ha, hsub⟩ := ih (enrichStep impls w st t)
    rw [ha]
    unfold enrichStep
    split_ifs with hh
    · cases impls t (heapRead st.heap w) with
      | ok r ms ss =>
        refine ⟨[t] ++ a, by simp, ?_⟩
        intro x hx
        rcases List.mem_append.mp hx with hx | hx
        · simp at hx
          simp [hx]
        · exact List.mem_cons_of_mem _ (hsub x hx)
      | err r e =>
        refine ⟨a, rfl, fun x hx => List.mem_cons_of_mem _ (hsub x hx)⟩
    · exact ⟨a, rfl, fun x hx => List.mem_cons_of_mem _ (hsub x hx)⟩

lemma heapRead_alloc_ne (h : Heap) (p : ProductData) (r : ℕ) (hr : r ≠ h.recs.length) :
    heapRead (heapAlloc h p).1 r = heapRead h r := by
  unfold heapRead heapAlloc
  rcases Nat.lt_or_ge r h.recs.length with hlt | hge
  · exact List.getD_append _ _ _ _ hlt
  · have hgt : h.recs.length < r := lt_of_le_of_ne hge (Ne.symm hr)
    rw [List.getD_eq_default _ _ (by simpa using hgt), List.getD_eq_default _ _ hge]

lemma enrichStep_err (impls : PassImpl) (w : ℕ) (st : EnrichState) (t : EnrichmentType)
    (r' : ProductData) (e : String) (hh : handledType t = true)
    (herr : impls t (heapRead st.heap w) = .err r' e) :
    enrichStep impls w st t =
      { heap := heapWrite st.heap w r'
        applied := st.applied
        metrics := st.metrics
        suggestions := st.suggestions ++ [failNote t e] } := by
  unfold enrichStep
  rw [if_pos hh, herr]

/-- C7: after `enrich_product` returns, every field of the original input
record (id, title, description, price, category, brand, sku, attributes,
images) equals its pre-call value; the enriched record lives behind a distinct
reference, and no heap cell other than the working copy is written — all pass
rewrites land only on the independently owned copy. -/
theorem enrich_preserves_original (impls : PassImpl) (cfg : List EnrichmentType)
    (h : Heap) (orig : ℕ) (horig : orig < h.recs.length) :
    ((heapRead (enrich_product impls cfg h orig).1 orig).id = (heapRead h orig).id ∧
     (heapRead (enrich_product impls cfg h orig).1 orig).title = (heapRead h orig).title ∧
     (heapRead (enrich_product impls cfg h orig).1 orig).description = (heapRead h orig).description ∧
     (heapRead (enrich_product impls cfg h orig).1 orig).price = (heapRead h orig).price ∧
     (heapRead (enrich_product impls cfg h orig).1 orig).category = (heapRead h orig).category ∧
     (heapRead (enrich_product impls cfg h orig).1 orig).brand = (heapRead h orig).brand ∧
     (heapRead (enrich_product impls cfg h orig).1 orig).sku = (heapRead h orig).sku ∧
     (heapRead (enrich_product impls cfg h orig).1 orig).attributes = (heapRead h orig).attributes ∧
     (heapRead (enrich_product impls cfg h orig).1 orig).images = (heapRead h orig).images) ∧
    (enrich_product impls cfg h orig).2.enriched_ref ≠ orig ∧
    (∀ r : ℕ, r ≠ (enrich_product impls cfg h orig).2.enriched_ref →
      heapRead (enrich_product impls cfg h orig).1 r = heapRead h r) := by
  have hwork : (enrich_product impls cfg h orig).2.enriched_ref = enrichWork h := rfl
  have hne : orig ≠ enrichWork h := Nat.ne_of_lt horig
  have hall : ∀ r : ℕ, r ≠ enrichWork h →
      heapRead (enrich_product impls cfg h orig).1 r = heapRead h r := by
    intro r hr
    show heapRead (List.foldl (enrichStep impls (enrichWork h)) (enrichInit h orig) cfg).heap r =
      heapRead h r
    rw [foldl_heap_outside impls (enrichWork h) cfg _ r hr]
    exact heapRead_alloc_ne h _ r hr
  have horig' := hall orig hne
  refine ⟨?_, ?_, ?_⟩
  · rw [horig']
    exact ⟨rfl, rfl, rfl, rfl, rfl, rfl, rfl, rfl, rfl⟩
  · rw [hwork]
    exact Ne.symm hne
  · rw [hwork]
    exact hall

/-- C7 witness: the frame theorem applied to a one-record heap and a pass
that rewrites the title. -/
theorem enrich_preserves_original_witness :
    (0 < (Heap.mk [{ id := "p0" }]).recs.length) ∧
    (enrich_product (fun _ r => .ok { r with title := some "new" } [] [])
        [.seo_optimization] (Heap.mk [{ id := "p0" }]) 0).2.enriched_ref ≠ 0 :=
  ⟨by decide,
    (enrich_preserves_original (fun _ r => .ok { r with title := some "new" } [] [])
      [.seo_optimization] (Heap.mk [{ id := "p0" }]) 0 (by decide)).2.1⟩

/-- C4: if an enabled (and dispatched) pass raises, `enrich_product` still
returns a result in which the failure note is part of `suggestions`, the
failing pass is absent from `applied_enrichments`, the failing iteration only
records the pass's partial writes and the failure note (metrics and applied
passes untouched), and the loop continues folding every later enabled pass
from exactly that state. -/
theorem enrich_pass_failure_isolated (impls : PassImpl) (h : Heap) (orig : ℕ)
    (pre post : List EnrichmentType) (t : EnrichmentType) (r' : ProductData) (e : String)
    (hh : handledType t = true) (hpre : t ∉ pre) (hpost : t ∉ post)
    (herr : impls t (heapRead
        (List.foldl (enrichStep impls (enrichWork h)) (enrichInit h orig) pre).heap
        (enrichWork h)) = .err r' e) :
    (failNote t e ∈ (enrich_product impls (pre ++ t :: post) h orig).2.suggestions) ∧
    (t ∉ (enrich_product impls (pre ++ t :: post) h orig).2.applied_enrichments) ∧
    (enrichStep impls (enrichWork h)
        (List.foldl (enrichStep impls (enrichWork h)) (enrichInit h orig) pre) t =
      { heap := heapWrite
          (List.foldl (enrichStep impls (enrichWork h)) (enrichInit h orig) pre).heap
          (enrichWork h) r'
        applied := (List.foldl (enrichStep impls (enrichWork h)) (enrichInit h orig) pre).applied
        metrics := (List.foldl (enrichStep impls (enrichWork h)) (enrichInit h orig) pre).metrics
        suggestions :=
          (List.foldl (enrichStep impls (enrichWork h)) (enrichInit h orig) pre).suggestions ++
            [failNote t e] }) ∧
    (List.foldl (enrichStep impls (enrichWork h)) (enrichInit h orig) (pre ++ t :: post) =
      List.foldl (enrichStep impls (enrichWork h))
        (enrichStep impls (enrichWork h)
          (List.foldl (enrichStep impls (enrichWork h)) (enrichInit h orig) pre) t) post) := by
  have hstep : enrichStep impls (enrichWork h)
      (List.foldl (enrichStep impls (enrichWork h)) (enrichInit h orig) pre) t =
      { heap := heapWrite
          (List.foldl (enrichStep impls (enrichWork h)) (enrichInit h orig) pre).heap
          (enrichWork h) r'
        applied := (List.foldl (enrichStep impls (enrichWork h)) (enrichInit h orig) pre).applied
        metrics := (List.foldl (enrichStep impls (enrichWork h)) (enrichInit h orig) pre).metrics
        suggestions :=
          (List.foldl (enrichStep impls (enrichWork h)) (enrichInit h orig) pre).suggestions ++
            [failNote t e] } :=
    enrichStep_err impls (enrichWork h) _ t r' e hh herr
  have hsplit : List.foldl (enrichStep impls (enrichWork h)) (enrichInit h orig)
      (pre ++ t :: post) =
      List.foldl (enrichStep impls (enrichWork h))
        (enrichStep impls (enrichWork h)
          (List.foldl (enrichStep impls (enrichWork h)) (enrichInit h orig) pre) t) post := by
    rw [List.foldl_append, List.foldl_cons]
  refine ⟨?_, ?_, hstep, hsplit⟩
  · show failNote t e ∈
      (List.foldl (enrichStep impls (enrichWork h)) (enrichInit h orig)
        (pre ++ t :: post)).suggestions
    rw [hsplit, hstep]
    obtain ⟨s, hs⟩ := suggestions_foldl_suffix impls (enrichWork h) post _
    rw [hs]
    simp
  · show t ∉
      (List.foldl (enrichStep impls (enrichWork h)) (enrichInit h orig)
        (pre ++ t :: post)).applied
    rw [hsplit, hstep]
    obtain ⟨a, ha, hsub⟩ := applied_foldl_suffix impls (enrichWork h) post _
    rw [ha]
    obtain ⟨a0, ha0, hsub0⟩ := applied_foldl_suffix impls (enrichWork h) pre (enrichInit h orig)
    dsimp only
    rw [ha0]
    intro hmem
    simp only [enrichInit, List.nil_append, List.mem_append] at hmem
    rcases hmem with hmem | hmem
    · exact hpre (hsub0 t hmem)
    · exact hpost (hsub t hmem)

/-- C4 witness: the isolation theorem applied to a one-record heap and a pass
table whose every pass raises, with the failing pass first and a later pass
behind it. -/
theorem enrich_pass_failure_isolated_witness :
    (handledType EnrichmentType.seo_optimization = true) ∧
    (EnrichmentType.seo_optimization ∉ ([] : List EnrichmentType)) ∧
    (EnrichmentType.seo_optimization ∉ [EnrichmentType.categorization]) ∧
    ((fun _ r => PassOutcome.err r "boom") EnrichmentType.seo_optimization
        (heapRead (List.foldl
          (enrichStep (fun _ r => PassOutcome.err r "boom")
            (enrichWork (Heap.mk [{ id := "p0" }])))
          (enrichInit (Heap.mk [{ id := "p0" }]) 0) []).heap
          (enrichWork (Heap.mk [{ id := "p0" }]))) =
      PassOutcome.err { id := "p0" } "boom") ∧
    (failNote EnrichmentType.seo_optimization "boom" ∈
      (enrich_product (fun _ r => PassOutcome.err r "boom")
        ([] ++ EnrichmentType.seo_optimization :: [EnrichmentType.categorization])
        (Heap.mk [{ id := "p0" }]) 0).2.suggestions) ∧
    (EnrichmentType.seo_optimization ∉
      (enrich_product (fun _ r => PassOutcome.err r "boom")
        ([] ++ EnrichmentType.seo_optimization :: [EnrichmentType.categorization])
        (Heap.mk [{ id := "p0" }]) 0).2.applied_enrichments) :=
  ⟨rfl, by decide, by decide, rfl,
    (enrich_pass_failure_isolated (fun _ r => PassOutcome.err r "boom")
      (Heap.mk [{ id := "p0" }]) 0 [] [EnrichmentType.categorization]
      EnrichmentType.seo_optimization { id := "p0" } "boom"
      rfl (by decide) (by decide) rfl).1,
    (enrich_pass_failure_isolated (fun _ r => PassOutcome.err r "boom")
      (Heap.mk [{ id := "p0" }]) 0 [] [EnrichmentType.categorization]
      EnrichmentType.seo_optimization { id := "p0" } "boom"
      rfl (by decide) (by decide) rfl).2.1⟩

/-! ## Score bounds (C5) and helper lemmas -/

lemma quality_nonneg (p : ProductData) : 0 ≤ _calculate_content_quality_score p := by
  unfold _calculate_content_quality_score
  refine le_min (by norm_num) ?_
  dsimp only
  refine add_nonneg (add_nonneg (add_nonneg (add_nonneg (add_nonneg le_rfl ?_) ?_) ?_) ?_) ?_
  · split
    · norm_num
    · split_ifs <;> norm_num
  · split
    · norm_num
    · split_ifs <;> norm_num
  · split_ifs
    · norm_num
    · positivity
  · split_ifs
    · norm_num
    · positivity
  · positivity

lemma quality_le (p : ProductData) : _calculate_content_quality_score p ≤ 100 := by
  unfold _calculate_content_quality_score
  exact min_le_left _ _

lemma completeness_nonneg (p : ProductData) : 0 ≤ _calculate_completeness_score p := by
  unfold _calculate_completeness_score
  refine le_min (by norm_num) ?_
  dsimp only
  refine add_nonneg (add_nonneg (add_nonneg (add_nonneg (add_nonneg (add_nonneg
    (add_nonneg (add_nonneg ?_ ?_) ?_) ?_) ?_) ?_) ?_) ?_) ?_
  all_goals split_ifs <;> norm_num

lemma completeness_le (p : ProductData) : _calculate_completeness_score p ≤ 100 := by
  unfold _calculate_completeness_score
  exact min_le_left _ _

lemma seo_nonneg (p : ProductData) : 0 ≤ _calculate_seo_score p := by
  unfold _calculate_seo_score
  refine le_min (by norm_num) ?_
  dsimp only
  refine add_nonneg (add_nonneg (add_nonneg (add_nonneg ?_ ?_) ?_) ?_) ?_
  · split
    · norm_num
    · split_ifs <;> norm_num
  · split
    · norm_num
    · split_ifs <;> norm_num
  · split_ifs <;> norm_num
  · split_ifs <;> norm_num
  · split_ifs <;> norm_num

lemma seo_le (p : ProductData) : _calculate_seo_score p ≤ 100 := by
  unfold _calculate_seo_score
  exact min_le_left _ _

/-- C5: for every product record, each of the three analytics scoring
functions — content quality score, completeness score, and SEO score —
returns a value between 0 and 100. -/
theorem scores_within_bounds (p : ProductData) :
    (0 ≤ _calculate_content_quality_score p ∧ _calculate_content_quality_score p ≤ 100) ∧
    (0 ≤ _calculate_completeness_score p ∧ _calculate_completeness_score p ≤ 100) ∧
    (0 ≤ _calculate_seo_score p ∧ _calculate_seo_score p ≤ 100) :=
  ⟨⟨quality_nonneg p, quality_le p⟩, ⟨completeness_nonneg p, completeness_le p⟩,
    seo_nonneg p, seo_le p⟩

/-! ## Distribution bucketing on empty input (C6) -/

/-- C6 counterexample: `_create_distribution` applied to the empty score list
returns the empty mapping, not the zero-filled five-bucket structure the claim
asserts. -/
theorem distribution_empty_counterexample :
    _create_distribution [] ≠
      [("0-20", 0), ("21-40", 0), ("41-60", 0), ("61-80", 0), ("81-100", 0)] := by
  decide

/-- C6 amended: distribution bucketing applied to an empty score list yields
the empty mapping (still a defined value, not an error), rather than the
zero-filled five-bucket structure. -/
theorem distribution_empty_amended : _create_distribution [] = [] := rfl

/-! ## Completeness-score refinement (C3) and helper lemmas -/

lemma c3_cancel (X y z : ℚ) (h1 : X + y ≤ 100) (h2 : X + z ≤ 100) :
    (min 100 (X + y) = min 100 (X + z)) ↔ y = z := by
  rw [min_eq_right h1, min_eq_right h2, add_right_inj]

lemma c3_cancel2 (X i1 a1 i2 a2 : ℚ) (h1 : X + i1 + a1 ≤ 100) (h2 : X + i2 + a2 ≤ 100)
    (hi : i2 ≤ i1) (hA : a2 ≤ a1) :
    (min 100 (X + i1 + a1) = min 100 (X + i2 + a2)) ↔ (i1 = i2 ∧ a1 = a2) := by
  rw [min_eq_right h1, min_eq_right h2]
  constructor
  · intro h
    constructor <;> linarith
  · rintro ⟨hx, hy⟩
    rw [hx, hy]

lemma eq_min_iff_le (x y : ℚ) : (x = min x y) ↔ x ≤ y := by
  rw [eq_comm, min_eq_left_iff]

lemma attr_cap_iff (n : ℕ) : ((7.5:ℚ) ≤ (n:ℚ) * 1.5) ↔ 5 ≤ n := by
  constructor
  · intro h
    by_contra hn
    push_neg at hn
    have h4 : n ≤ 4 := by omega
    have : (n:ℚ) ≤ 4 := by exact_mod_cast h4
    linarith
  · intro h
    have : (5:ℚ) ≤ (n:ℚ) := by exact_mod_cast h
    linarith

lemma img_cap_iff (n : ℕ) : ((7.5:ℚ) ≤ (n:ℚ) * 2.5) ↔ 3 ≤ n := by
  constructor
  · intro h
    by_contra hn
    push_neg at hn
    have h2 : n ≤ 2 := by omega
    have : (n:ℚ) ≤ 2 := by exact_mod_cast h2
    linarith
  · intro h
    have : (3:ℚ) ≤ (n:ℚ) := by exact_mod_cast h
    linarith

/-- C3 counterexample: on a record with exactly one attribute (and nothing
else beyond the id) the Analytics Engine completeness score is 21.5 while the
enrichment quality-scoring completeness is 15.5 — the two passes do not
implement one formula. -/
theorem completeness_scores_differ_counterexample :
    _calculate_completeness_score { id := "x", attributes := [("a", "b")] } ≠
      _calculate_content_completeness { id := "x", attributes := [("a", "b")] } := by
  norm_num [_calculate_completeness_score, _calculate_content_completeness, strTruthy, numTruthy,
    min_def, show ("x":String) ≠ "" from by decide]

/-- C3 amended: the two completeness scores agree on the required fields and
on brand/sku, but differ on the optional collections: the Analytics Engine
awards a flat 7.5 for a non-empty collection, while the enrichment pass awards
`min(7.5, 1.5·|attributes|)` and `min(7.5, 2.5·|images|)`; consequently the
scores coincide exactly when each collection is empty or large enough to reach
the 7.5 cap (at least 5 attributes, at least 3 images). -/
theorem completeness_scores_agree_iff (p : ProductData) :
    (_calculate_completeness_score p = _calculate_content_completeness p) ↔
      ((p.attributes = [] ∨ 5 ≤ p.attributes.length) ∧
       (p.images = [] ∨ 3 ≤ p.images.length)) := by
  obtain ⟨i, t, d, pr, c, b, s, a, im⟩ := p
  unfold _calculate_completeness_score _calculate_content_completeness
  dsimp only
  have hX : ((if i ≠ "" then (14:ℚ) else 0) + (if strTruthy t then (14:ℚ) else 0) +
      (if strTruthy d then (14:ℚ) else 0) + (if numTruthy pr then (14:ℚ) else 0) +
      (if strTruthy c then (14:ℚ) else 0)) + (if strTruthy b then (7.5:ℚ) else 0) +
      (if strTruthy s then (7.5:ℚ) else 0) ≤ 85 := by
    split_ifs <;> norm_num
  have hX0 : (0:ℚ) ≤ ((if i ≠ "" then (14:ℚ) else 0) + (if strTruthy t then (14:ℚ) else 0) +
      (if strTruthy d then (14:ℚ) else 0) + (if numTruthy pr then (14:ℚ) else 0) +
      (if strTruthy c then (14:ℚ) else 0)) + (if strTruthy b then (7.5:ℚ) else 0) +
      (if strTruthy s then (7.5:ℚ) else 0) := by
    split_ifs <;> norm_num
  simp only [ne_eq] at hX hX0
  have hmina : min (7.5:ℚ) ((a.length:ℚ) * 1.5) ≤ 7.5 := min_le_left _ _
  have hminI : min (7.5:ℚ) ((im.length:ℚ) * 2.5) ≤ 7.5 := min_le_left _ _
  have hmina0 : (0:ℚ) ≤ min (7.5:ℚ) ((a.length:ℚ) * 1.5) := by positivity
  have hminI0 : (0:ℚ) ≤ min (7.5:ℚ) ((im.length:ℚ) * 2.5) := by positivity
  by_cases him : im = [] <;> by_cases ha : a = [] <;>
    simp only [him, ha, if_pos, if_neg, ne_eq, not_true_eq_false, not_false_eq_true,
      ite_true, ite_false, if_true, if_false, add_zero]
  · simp
  · rw [c3_cancel _ _ _ (by linarith) (by linarith), eq_min_iff_le, attr_cap_iff]
    simp [him]
  · rw [c3_cancel _ _ _ (by linarith) (by linarith), eq_min_iff_le, img_cap_iff]
    simp [ha]
  · rw [c3_cancel2 _ _ _ _ _ (by linarith) (by linarith) hminI hmina,
      eq_min_iff_le, eq_min_iff_le, img_cap_iff, attr_cap_iff]
    simp only [him, ha, false_or]
    exact and_comm

/-! ## Trend analysis forecast (C1) and helper lemmas -/

lemma length_insertByTs (x : MetricData) (l : List MetricData) :
    (insertByTs x l).length = l.length + 1 := by
  induction l with
  | nil => rfl
  | cons y ys ih =>
    simp only [insertByTs]
    split_ifs <;> simp [ih]

lemma length_sortByTs (l : List MetricData) : (sortByTs l).length = l.length := by
  induction l with
  | nil => rfl
  | cons x xs ih =>
    simp only [sortByTs, List.foldr_cons] at *
    rw [length_insertByTs, ih]
    simp

lemma length_trendValues (store : List (String × List MetricData)) (now : ℤ)
    (name : String) (days : ℤ) :
    (trendValues store now name days).length = (windowData store now name days).length := by
  unfold trendValues
  rw [List.length_map, length_sortByTs]

/-- Core of the C1 analysis, shared by the amended theorem and the
counterexample: with at least 3 points in the window, `perform_trend_analysis`
succeeds and its forecast is the least-squares projection of exactly 7 forward
values floored at zero — the `days=7` call site ignores the window length. -/
lemma trend_forecast_core (store : List (String × List MetricData)) (now : ℤ)
    (name : String) (days : ℤ)
    (h3 : 3 ≤ (windowData store now name days).length) :
    ∃ ta, perform_trend_analysis store now name days = .ok ta ∧
      ta.forecast = .ok
        { forecast_days := 7
          forecast_values :=
            (List.range 7).map (fun i : ℕ =>
              max 0 (olsSlope (trendValues store now name days) *
                (((trendValues store now name days).length : ℚ) + (i : ℚ)) +
                olsIntercept (trendValues store now name days)))
          trend_slope := olsSlope (trendValues store now name days)
          confidence := 70 } := by
  have hne : windowData store now name days ≠ [] := by
    intro h
    rw [h] at h3
    simp at h3
  have hlen : ¬ ((trendValues store now name days).length < 3) := by
    rw [length_trendValues]
    omega
  have htv : List.map MetricData.value (sortByTs (windowData store now name days)) =
      trendValues store now name days := rfl
  simp only [perform_trend_analysis]
  rw [if_neg hne]
  refine ⟨_, rfl, ?_⟩
  simp only [_generate_forecast, htv]
  rw [if_neg hlen]

/-- C1 counterexample: with window length 30 days and three in-window points,
the returned forecast contains 7 projected values, not the 30 the claim
asserts. -/
theorem trend_forecast_window30_counterexample :
    ((perform_trend_analysis
        [("m", [{ metric_name := "m", value := 1, timestamp := 90 },
                { metric_name := "m", value := 2, timestamp := 95 },
                { metric_name := "m", value := 3, timestamp := 99 }])]
        100 "m" 30).toOption.map (fun ta =>
          (ta.forecast.toOption.map (fun fc => fc.forecast_values.length)))) =
      some (some 7) ∧ (7 : ℕ) ≠ 30 := by
  obtain ⟨ta, hta, hfc⟩ := trend_forecast_core
    [("m", [{ metric_name := "m", value := 1, timestamp := 90 },
            { metric_name := "m", value := 2, timestamp := 95 },
            { metric_name := "m", value := 3, timestamp := 99 }])]
    100 "m" 30 (by decide)
  refine ⟨?_, by decide⟩
  rw [hta]
  simp only [Except.toOption, Option.map_some']
  rw [hfc]
  simp only [Except.toOption, Option.map_some', Option.some.injEq]
  rw [List.length_map, List.length_range]

/-- C1 amended: when at least 3 data points fall inside the window, the
returned forecast contains exactly 7 projected values (the hard-coded
forecast horizon, regardless of `window_days`), each obtained from the
ordinary least-squares line fitted to value against index over the observed
series and floored at zero. -/
theorem trend_forecast_seven_values (store : List (String × List MetricData)) (now : ℤ)
    (name : String) (days : ℤ)
    (h3 : 3 ≤ (windowData store now name days).length) :
    ∃ ta, perform_trend_analysis store now name days = .ok ta ∧
      ta.forecast = .ok
        { forecast_days := 7
          forecast_values :=
            (List.range 7).map (fun i : ℕ =>
              max 0 (olsSlope (trendValues store now name days) *
                (((trendValues store now name days).length : ℚ) + (i : ℚ)) +
                olsIntercept (trendValues store now name days)))
          trend_slope := olsSlope (trendValues store now name days)
          confidence := 70 } :=
  trend_forecast_core store now name days h3

/-- C1 witness: the amended theorem applied to a concrete store with three
points in a 30-day window. -/
theorem trend_forecast_seven_values_witness :
    3 ≤ (windowData
        [("m", [{ metric_name := "m", value := 1, timestamp := 90 },
                { metric_name := "m", value := 2, timestamp := 95 },
                { metric_name := "m", value := 3, timestamp := 99 }])] 100 "m" 30).length ∧
    (∃ ta, perform_trend_analysis
        [("m", [{ metric_name := "m", value := 1, timestamp := 90 },
                { metric_name := "m", value := 2, timestamp := 95 },
                { metric_name := "m", value := 3, timestamp := 99 }])] 100 "m" 30 = .ok ta ∧
      ta.forecast = .ok
        { forecast_days := 7
          forecast_values :=
            (List.range 7).map (fun i : ℕ =>
              max 0 (olsSlope (trendValues
                  [("m", [{ metric_name := "m", value := 1, timestamp := 90 },
                          { metric_name := "m", value := 2, timestamp := 95 },
                          { metric_name := "m", value := 3, timestamp := 99 }])] 100 "m" 30) *
                (((trendValues
                  [("m", [{ metric_name := "m", value := 1, timestamp := 90 },
                          { metric_name := "m", value := 2, timestamp := 95 },
                          { metric_name := "m", value := 3, timestamp := 99 }])] 100 "m" 30).length : ℚ) +
                  (i : ℚ)) +
                olsIntercept (trendValues
                  [("m", [{ metric_name := "m", value := 1, timestamp := 90 },
                          { metric_name := "m", value := 2, timestamp := 95 },
                          { metric_name := "m", value := 3, timestamp := 99 }])] 100 "m" 30)))
          trend_slope := olsSlope (trendValues
              [("m", [{ metric_name := "m", value := 1, timestamp := 90 },
                      { metric_name := "m", value := 2, timestamp := 95 },
                      { metric_name := "m", value := 3, timestamp := 99 }])] 100 "m" 30)
          confidence := 70 }) :=
  ⟨by decide,
    trend_forecast_seven_values
      [("m", [{ metric_name := "m", value := 1, timestamp := 90 },
              { metric_name := "m", value := 2, timestamp := 95 },
              { metric_name := "m", value := 3, timestamp := 99 }])] 100 "m" 30 (by decide)⟩

/-! ## Alert evaluation (C8, C10) and helper lemmas -/

lemma checkAlertsGo_eq (m : MetricData) (ths : List (String × ℚ)) :
    checkAlertsGo m ths =
      (ths.filter (fun e =>
          containsSub e.1.toList m.metric_name.toList && decide (m.value < e.2))).map
        (fun e =>
          { metric_name := m.metric_name
            value := m.value
            threshold := e.2
            severity := if m.value > e.2 * 0.8 then "warning" else "critical" }) := by
  induction ths with
  | nil => rfl
  | cons e rest ih =>
    obtain ⟨tname, tval⟩ := e
    simp only [checkAlertsGo, List.filter_cons]
    by_cases h1 : containsSub tname.toList m.metric_name.toList = true
    · have h1d : containsSub tname.data m.metric_name.data = true := h1
      by_cases h2 : m.value < tval
      · rw [if_pos ⟨h1, h2⟩]
        simp [h1d, h2, ih]
      · rw [if_neg (by tauto)]
        simp [h1d, h2, ih]
    · have h1d : containsSub tname.data m.metric_name.data = false :=
        Bool.eq_false_iff.mpr h1
      rw [if_neg (by tauto)]
      simp [h1d, ih]

lemma check_alerts_eq (ths : List (String × ℚ)) (m : MetricData) :
    _check_alerts ths m =
      (ths.filter (fun e =>
          containsSub e.1.toList m.metric_name.toList && decide (m.value < e.2))).map
        (fun e =>
          { metric_name := m.metric_name
            value := m.value
            threshold := e.2
            severity := if m.value > e.2 * 0.8 then "warning" else "critical" }) := by
  unfold _check_alerts
  split_ifs with h
  · simp [h]
  · exact checkAlertsGo_eq m ths

/-- C8: tracking a metric point appends, per configured threshold entry, one
alert exactly when the threshold name is a substring of the point's metric
name and the value is strictly below the threshold; each emitted alert's
severity is warning when the value exceeds 0.8 times the threshold and
critical otherwise. -/
theorem alert_emission_characterization (ths : List (String × ℚ))
    (st : AnalyticsState) (m : MetricData) :
    (track_metric ths st m).alert_history =
      st.alert_history ++
        (ths.filter (fun e =>
            containsSub e.1.toList m.metric_name.toList && decide (m.value < e.2))).map
          (fun e =>
            { metric_name := m.metric_name
              value := m.value
              threshold := e.2
              severity := if m.value > e.2 * 0.8 then "warning" else "critical" }) := by
  unfold track_metric
  rw [check_alerts_eq]

/-! ## Cohort analysis (C2) and helper lemmas -/

lemma lookupCohort_addToCohorts (acc : List (String × List ProductData)) (k0 : String)
    (p : ProductData) (k : String) :
    lookupCohort (addToCohorts k0 p acc) k =
      lookupCohort acc k ++ (if k = k0 then [p] else []) := by
  induction acc with
  | nil =>
    by_cases h : k = k0
    · subst h
      simp [addToCohorts, lookupCohort]
    · simp [addToCohorts, lookupCohort, h, Ne.symm h]
  | cons e rest ih =>
    obtain ⟨k', g⟩ := e
    by_cases h : k' = k0
    · subst h
      by_cases hk : k' = k
      · subst hk
        simp [addToCohorts, lookupCohort]
      · simp [addToCohorts, lookupCohort, hk, Ne.symm hk]
    · by_cases hk : k' = k
      · subst hk
        have hne : ¬ k' = k0 := h
        simp [addToCohorts, lookupCohort, hne, Ne.symm hne]
      · simp [addToCohorts, lookupCohort, h, hk, ih]

lemma sizes_addToCohorts (acc : List (String × List ProductData)) (k0 : String)
    (p : ProductData) :
    ((addToCohorts k0 p acc).map (fun kg => kg.2.length)).sum =
      ((acc.map (fun kg => kg.2.length)).sum) + 1 := by
  induction acc with
  | nil => simp [addToCohorts]
  | cons e rest ih =>
    obtain ⟨k', g⟩ := e
    by_cases h : k' = k0
    · subst h
      simp [addToCohorts]
      omega
    · simp [addToCohorts, h, ih]
      omega

lemma lookup_foldl_cohorts (f : String) (l : List ProductData)
    (acc : List (String × List ProductData)) (k : String) :
    lookupCohort
        (l.foldl (fun acc p =>
          match cohortValue p f with
          | some k0 => addToCohorts k0 p acc
          | none => acc) acc) k =
      lookupCohort acc k ++ (l.filter (fun p => decide (cohortValue p f = some k))) := by
  induction l generalizing acc with
  | nil => simp
  | cons p rest ih =>
    simp only [List.foldl_cons, List.filter_cons]
    cases hv : cohortValue p f with
    | none =>
      rw [ih]
      simp [hv]
    | some k0 =>
      rw [ih, lookupCohort_addToCohorts]
      by_cases hk : k = k0
      · subst hk
        simp [hv]
      · simp [hv, hk, Ne.symm hk]

lemma sizes_foldl_cohorts (f : String) (l : List ProductData)
    (acc : List (String × List ProductData)) :
    (((l.foldl (fun acc p =>
          match cohortValue p f with
          | some k0 => addToCohorts k0 p acc
          | none => acc) acc)).map (fun kg => kg.2.length)).sum =
      ((acc.map (fun kg => kg.2.length)).sum) +
        l.countP (fun p => (cohortValue p f).isSome) := by
  induction l generalizing acc with
  | nil => simp
  | cons p rest ih =>
    simp only [List.foldl_cons, List.countP_cons]
    cases hv : cohortValue p f with
    | none =>
      rw [ih]
      simp [hv]
    | some k0 =>
      rw [ih, sizes_addToCohorts]
      simp [hv]
      omega

/-- C2 counterexample: a single record whose `category` is absent (`None`) is
placed in no cohort at all — the cohort sizes sum to 0, not to the total
record count 1; the falsy value is dropped by `if cohort_value:` instead of
being grouped under Unknown. -/
theorem cohort_drops_falsy_counterexample :
    (((perform_cohort_analysis [{ id := "p1" }] "category").cohort_details.map
        (fun kg => kg.2.size)).sum ≠
      (perform_cohort_analysis [{ id := "p1" }] "category").total_products) := by
  decide

/-- C2 amended: every record whose cohort-field value is truthy is placed into
exactly one cohort, the one keyed by that value's string form (a field name
that is not a record attribute groups all records under the getattr default
Unknown); records with a falsy field value (absent, empty string, zero price,
empty collection) are dropped from every cohort.  Consequently the cohort
sizes sum to the number of truthy-valued records (not to the total record
count), while each cohort's percentage is still size divided by the total
record count times 100. -/
theorem cohort_partition_amended (products : List ProductData) (f : String) :
    (∀ k : String,
        lookupCohort (cohortGroups products f) k =
          products.filter (fun p => decide (cohortValue p f = some k))) ∧
    (((perform_cohort_analysis products f).cohort_details.map (fun kg => kg.2.size)).sum =
        products.countP (fun p => (cohortValue p f).isSome)) ∧
    ((perform_cohort_analysis products f).cohort_details.map (fun kg => kg.2.percentage) =
        (perform_cohort_analysis products f).cohort_details.map
          (fun kg =>
            (kg.2.size : ℚ) / ((perform_cohort_analysis products f).total_products : ℚ) * 100)) := by
  refine ⟨?_, ?_, ?_⟩
  · intro k
    have := lookup_foldl_cohorts f products [] k
    simpa [cohortGroups, lookupCohort] using this
  · have := sizes_foldl_cohorts f products []
    simp only [perform_cohort_analysis, cohortGroups, List.map_map] at *
    simpa [cohortMetricsOf, Function.comp] using this
  · simp [perform_cohort_analysis, cohortMetricsOf, List.map_map, Function.comp]

/-- C10: the number of alerts a single tracked point appends to the alert
history equals the number of configured threshold entries whose name occurs in
the point's metric name and whose threshold lies strictly above the value —
one point can emit several alerts at once. -/
theorem alert_count_per_point (ths : List (String × ℚ))
    (st : AnalyticsState) (m : MetricData) :
    (track_metric ths st m).alert_history.length =
      st.alert_history.length +
        ths.countP (fun e =>
          containsSub e.1.toList m.metric_name.toList && decide (m.value < e.2)) := by
  unfold track_metric
  rw [check_alerts_eq]
  simp [List.countP_eq_length_filter]

/-! ## A/B-test analysis (C9) and helper lemmas -/

lemma ite_deploy_iff (A : Prop) [Decidable A] :
    ((if A then "Deploy variant" else "Keep control") = "Deploy variant") ↔ A := by
  split_ifs with h
  · simp [h]
  · constructor
    · intro hk
      exact absurd hk (by decide)
    · intro ha
      exact absurd ha h

lemma ab_test_formula_core (c v : List ℝ) (hc : c ≠ []) (hv : v ≠ []) :
    ∃ r, generate_ab_test_analysis c v = some r ∧
      (0 < r.pooled_std_dev →
        r.t_statistic = |rmean v - rmean c| /
          (r.pooled_std_dev * Real.sqrt (2 / ((min c.length v.length : ℕ) : ℝ)))) ∧
      (r.pooled_std_dev = 0 → r.t_statistic = 0) ∧
      (r.is_significant ↔ r.t_statistic > 1.96) ∧
      (r.recommendation = "Deploy variant" ↔
        (r.is_significant ∧ r.improvement_percentage > 0)) ∧
      (¬ (r.is_significant ∧ r.improvement_percentage > 0) →
        r.recommendation = "Keep control") := by
  unfold generate_ab_test_analysis
  rw [if_neg (by tauto)]
  refine ⟨_, rfl, ?_, ?_, ?_, ?_, ?_⟩
  · intro hp
    dsimp only at hp ⊢
    rw [if_pos hp]
  · intro hp
    dsimp only at hp ⊢
    rw [if_neg (by rw [hp]; exact lt_irrefl 0)]
  · exact Iff.rfl
  · exact ite_deploy_iff _
  · intro hnot
    dsimp only at hnot ⊢
    rw [if_neg hnot]

lemma ab_test_example_core (c v : List ℝ) (hc : c ≠ []) (hv : v ≠ [])
    (hmc : rmean c = 10) (hmv : rmean v = 14)
    (hsc : sampleStdev c = 1) (hsv : sampleStdev v = 1)
    (hlc : c.length = 30) (hlv : v.length = 30) :
    ∃ r, generate_ab_test_analysis c v = some r ∧
      r.is_significant ∧ r.recommendation = "Deploy variant" := by
  unfold generate_ab_test_analysis
  rw [if_neg (by tauto)]
  refine ⟨_, rfl, ?_⟩
  have hpooled : Real.sqrt (((1:ℝ) ^ 2 + 1 ^ 2) / 2) = 1 := by
    norm_num [Real.sqrt_one]
  have hmin : (((30:ℕ) ⊓ (30:ℕ) : ℕ) : ℝ) = 30 := by norm_num
  have hs : Real.sqrt (2 / 30) < 1 / 2 := by
    rw [Real.sqrt_lt' (by norm_num : (0:ℝ) < 1 / 2)]
    norm_num
  have hs0 : 0 < Real.sqrt (2 / 30) := Real.sqrt_pos.mpr (by norm_num)
  have htsig : |(14:ℝ) - 10| / (1 * Real.sqrt (2 / 30)) > 1.96 := by
    have habs : |(14:ℝ) - 10| = 4 := by norm_num
    rw [habs, one_mul]
    have hlt : 4 / (1 / 2) < 4 / Real.sqrt (2 / 30) :=
      div_lt_div_of_pos_left (by norm_num) hs0 hs
    calc (1.96:ℝ) < 8 := by norm_num
      _ = 4 / (1 / 2) := by norm_num
      _ < 4 / Real.sqrt (2 / 30) := hlt
  have himp : ((14:ℝ) - 10) / 10 * 100 > 0 := by norm_num
  constructor
  · show _ > (1.96:ℝ)
    dsimp only
    rw [hmc, hmv, hsc, hsv, hlc, hlv, hpooled, if_pos (by norm_num : (0:ℝ) < 1), hmin]
    exact htsig
  · dsimp only
    rw [hmc, hmv, hsc, hsv, hlc, hlv, hpooled, hmin]
    rw [if_pos (by norm_num : (0:ℝ) < 1)]
    rw [if_pos (by norm_num : (10:ℝ) ≠ 0)]
    exact (ite_deploy_iff _).mpr ⟨htsig, himp⟩

/-- C9: for non-empty A/B groups, the t-statistic equals
`|variant_mean - control_mean| / (pooled_std * sqrt(2 / min(n_control, n_variant)))`
when the pooled standard deviation is positive and 0 otherwise;
`is_significant` holds exactly when the t-statistic exceeds 1.96; the
recommendation is Deploy variant exactly when the result is significant with
positive improvement, and Keep control otherwise.  In particular, control
mean 10 (stdev 1, n = 30) versus variant mean 14 (stdev 1, n = 30) is
significant with recommendation Deploy variant. -/
theorem generate_ab_test_spec :
    (∀ c v : List ℝ, c ≠ [] → v ≠ [] →
      ∃ r, generate_ab_test_analysis c v = some r ∧
        (0 < r.pooled_std_dev →
          r.t_statistic = |rmean v - rmean c| /
            (r.pooled_std_dev * Real.sqrt (2 / ((min c.length v.length : ℕ) : ℝ)))) ∧
        (r.pooled_std_dev = 0 → r.t_statistic = 0) ∧
        (r.is_significant ↔ r.t_statistic > 1.96) ∧
        (r.recommendation = "Deploy variant" ↔
          (r.is_significant ∧ r.improvement_percentage > 0)) ∧
        (¬ (r.is_significant ∧ r.improvement_percentage > 0) →
          r.recommendation = "Keep control")) ∧
    (∀ c v : List ℝ, c ≠ [] → v ≠ [] →
      rmean c = 10 → rmean v = 14 →
      sampleStdev c = 1 → sampleStdev v = 1 →
      c.length = 30 → v.length = 30 →
      ∃ r, generate_ab_test_analysis c v = some r ∧
        r.is_significant ∧ r.recommendation = "Deploy variant") :=
  ⟨ab_test_formula_core, ab_test_example_core⟩

/-- C9 witness: the spec theorem applied to concrete 30-point samples with
control mean 10, variant mean 14 and sample standard deviation 1 each. -/
theorem generate_ab_test_spec_witness :
    abControlSample ≠ [] ∧ abVariantSample ≠ [] ∧
    rmean abControlSample = 10 ∧ rmean abVariantSample = 14 ∧
    sampleStdev abControlSample = 1 ∧ sampleStdev abVariantSample = 1 ∧
    abControlSample.length = 30 ∧ abVariantSample.length = 30 ∧
    (∃ r, generate_ab_test_analysis abControlSample abVariantSample = some r ∧
      r.is_significant ∧ r.recommendation = "Deploy variant") := by
  have hc : abControlSample ≠ [] := by simp [abControlSample]
  have hv : abVariantSample ≠ [] := by simp [abVariantSample]
  have hmc : rmean abControlSample = 10 := by
    simp [abControlSample, rmean, List.sum_append, List.sum_replicate,
      List.length_append, List.length_replicate, nsmul_eq_mul]
    norm_num
  have hmv : rmean abVariantSample = 14 := by
    simp [abVariantSample, rmean, List.sum_append, List.sum_replicate,
      List.length_append, List.length_replicate, nsmul_eq_mul]
    norm_num
  have hlc : abControlSample.length = 30 := by
    simp [abControlSample]
  have hlv : abVariantSample.length = 30 := by
    simp [abVariantSample]
  have hsc : sampleStdev abControlSample = 1 := by
    rw [sampleStdev, if_pos (by simp [abControlSample])]
    rw [hmc]
    have hsum : ((abControlSample).map (fun x => (x - 10) ^ 2)).sum = 29 := by
      simp [abControlSample, List.map_append, List.sum_append, List.map_replicate,
        List.sum_replicate, nsmul_eq_mul]
      norm_num
    rw [hsum, hlc]
    norm_num [Real.sqrt_one]
  have hsv : sampleStdev abVariantSample = 1 := by
    rw [sampleStdev, if_pos (by simp [abVariantSample])]
    rw [hmv]
    have hsum : ((abVariantSample).map (fun x => (x - 14) ^ 2)).sum = 29 := by
      simp [abVariantSample, List.map_append, List.sum_append, List.map_replicate,
        List.sum_replicate, nsmul_eq_mul]
      norm_num
    rw [hsum, hlv]
    norm_num [Real.sqrt_one]
  exact ⟨hc, hv, hmc, hmv, hsc, hsv, hlc, hlv,
    generate_ab_test_spec.2 abControlSample abVariantSample hc hv hmc hmv hsc hsv hlc hlv⟩
